import Mathlib

/-!
Verification of the ScrollSense session/blur timing model against the
content script (content.js) and the background service worker
(background.js).  JavaScript numbers are modelled as rationals extended
with the special values Infinity, -Infinity and NaN where division by
zero can occur; machine timestamps are modelled as integers (ms).
-/

namespace ScrollSense

/-- A JavaScript number: a rational, or one of the IEEE special values
that the blur formulas can produce (division by zero). -/
inductive JSNum where
  | num (q : ℚ)
  | posInf
  | negInf
  | nan
deriving DecidableEq

/-- JavaScript division of two ordinary numbers: `a / 0` is `Infinity`
for positive `a`, `-Infinity` for negative `a`, and `NaN` for `0 / 0`. -/
def jsDiv (a b : ℚ) : JSNum :=
  if b = 0 then
    if 0 < a then JSNum.posInf else if a < 0 then JSNum.negInf else JSNum.nan
  else JSNum.num (a / b)

/-- JavaScript multiplication of a (possibly special) number by an
ordinary constant. -/
def jsMulConst (x : JSNum) (c : ℚ) : JSNum :=
  match x with
  | JSNum.num q => JSNum.num (q * c)
  | JSNum.posInf => if 0 < c then JSNum.posInf else if c < 0 then JSNum.negInf else JSNum.nan
  | JSNum.negInf => if 0 < c then JSNum.negInf else if c < 0 then JSNum.posInf else JSNum.nan
  | JSNum.nan => JSNum.nan

/-- JavaScript division of a (possibly special) number by a nonzero
ordinary constant. -/
def jsDivConst (x : JSNum) (c : ℚ) : JSNum :=
  match x with
  | JSNum.num q => jsDiv q c
  | JSNum.posInf => if 0 < c then JSNum.posInf else if c < 0 then JSNum.negInf else JSNum.nan
  | JSNum.negInf => if 0 < c then JSNum.negInf else if c < 0 then JSNum.posInf else JSNum.nan
  | JSNum.nan => JSNum.nan

/-- JavaScript `Math.min(c, x)` with `c` an ordinary number:
`Math.min(c, Infinity) = c`, `Math.min(c, NaN) = NaN`. -/
def jsMinConst (c : ℚ) (x : JSNum) : JSNum :=
  match x with
  | JSNum.num q => JSNum.num (min c q)
  | JSNum.posInf => JSNum.num c
  | JSNum.negInf => JSNum.negInf
  | JSNum.nan => JSNum.nan

/-- In-session blur percent computed by the session-timer tick
(content.js `startSessionTimer`, lines 500-509):
`Math.min(50, (overTime / (intendedTime * 0.5)) * 50)` when
`elapsed > intendedTime`.  When `elapsed <= intendedTime` the tick does
not call `applyProgressiveBlur`, so the overlay keeps the 0px blur it
was given at session start (or on extend, which resets it to 0px). -/
def inSessionBlurPercent (elapsed intendedTime : ℚ) : JSNum :=
  if intendedTime < elapsed then
    jsMinConst 50 (jsMulConst (jsDiv (elapsed - intendedTime) (intendedTime * (1 / 2))) 50)
  else JSNum.num 0

/-- Pixel value applied by `applyProgressiveBlur` (content.js lines
729-748): `blurPixels = (percent / 100) * 6`. -/
def applyProgressiveBlurPixels (percent : JSNum) : JSNum :=
  jsMulConst (jsDivConst percent 100) 6

/-- Blur pixels shown during an active session as a function of
effective elapsed time and intended duration (both in ms). -/
def inSessionBlurPixels (elapsed intendedTime : ℚ) : JSNum :=
  applyProgressiveBlurPixels (inSessionBlurPercent elapsed intendedTime)

/-- C1: in-session blur curve.  For every session with
`intendedDurationMs > 0` the blur pixel value is 0 whenever
`effectiveElapsed <= intendedDurationMs`, and whenever
`effectiveElapsed > intendedDurationMs` it equals
`min(1, (effectiveElapsed - intendedDurationMs) / (0.5 * intendedDurationMs)) * 50 / 100 * 6`. -/
theorem in_session_blur_curve (elapsed intended : ℚ) (hpos : 0 < intended) :
    (elapsed ≤ intended → inSessionBlurPixels elapsed intended = JSNum.num 0) ∧
    (intended < elapsed →
      inSessionBlurPixels elapsed intended =
        JSNum.num (min 1 ((elapsed - intended) / (1 / 2 * intended)) * 50 / 100 * 6)) := by
  constructor
  · intro hle
    have hnot : ¬ intended < elapsed := not_lt.mpr hle
    simp [inSessionBlurPixels, inSessionBlurPercent, applyProgressiveBlurPixels,
      jsDivConst, jsDiv, jsMulConst, hnot]
  · intro hlt
    have hden : intended * (1 / 2) ≠ 0 := by positivity
    have h100 : (100 : ℚ) ≠ 0 := by norm_num
    have key : ∀ x : ℚ, min 50 (x * 50) = min 1 x * 50 := by
      intro x
      rw [min_mul_of_nonneg _ _ (by norm_num : (0:ℚ) ≤ 50), one_mul]
    simp only [inSessionBlurPixels, inSessionBlurPercent, applyProgressiveBlurPixels,
      if_pos hlt, jsDiv, if_neg hden, jsMulConst, jsMinConst, jsDivConst, if_neg h100]
    rw [key, mul_comm intended (1 / 2 : ℚ)]

/-- Witness for C1 at the spec's Scenario A: `intendedMinutes = 5`
(300000 ms), `elapsed = 6 min` (360000 ms) gives 1.2 px (= 6/5). -/
theorem in_session_blur_curve_witness :
    inSessionBlurPixels 360000 300000 = JSNum.num (6 / 5) := by
  have h := (in_session_blur_curve 360000 300000 (by norm_num)).2 (by norm_num)
  rw [h]
  norm_num

/-- C8: if `intendedDurationMs = 0` and the session is overrun
(`elapsed > 0`), the in-session blur computation does not produce an
undefined value: in JavaScript `overTime / 0 = Infinity` and
`Math.min(50, Infinity) = 50`, so the curve short-circuits to
fraction 1 and the blur sits at its in-session cap
`50 / 100 * 6 = 3` px. -/
theorem in_session_blur_zero_intent (elapsed : ℚ) (h : 0 < elapsed) :
    inSessionBlurPixels elapsed 0 = JSNum.num 3 := by
  have hdiv : jsDiv (elapsed - 0) (0 * (1 / 2)) = JSNum.posInf := by
    simp [jsDiv, h]
  simp only [inSessionBlurPixels, inSessionBlurPercent, if_pos h,
    applyProgressiveBlurPixels, hdiv, jsMulConst, jsMinConst, jsDivConst]
  norm_num [jsDiv]

/-- Witness for C8 at a concrete overrun instant. -/
theorem in_session_blur_zero_intent_witness :
    inSessionBlurPixels 60000 0 = JSNum.num 3 :=
  in_session_blur_zero_intent 60000 (by norm_num)

/-! ## Post-session blur (content.js `startPostSessionBlur`, lines 945-1027) -/

/-- The JavaScript default `stored || 50` applied to the stored
`preferences.blurIntensity`: a missing value falls back to 50, and so
does a stored 0, because 0 is falsy in JavaScript
(content.js line 948: `data.preferences?.blurIntensity || 50`). -/
def effectiveBlurIntensity (stored : Option ℚ) : ℚ :=
  match stored with
  | none => 50
  | some q => if q = 0 then 50 else q

/-- content.js line 951: `Math.max(0, Math.min(100, blurIntensity))`. -/
def cappedBlurIntensity (stored : Option ℚ) : ℚ :=
  max 0 (min 100 (effectiveBlurIntensity stored))

/-- content.js line 956: `(cappedBlurIntensity / 100) * 12`. -/
def maxBlurPixels (stored : Option ℚ) : ℚ :=
  cappedBlurIntensity stored / 100 * 12

/-- Modelled from the spec (claim C2's formula): the maximum post-session
blur should be `clamp(blurIntensity, 0, 100) / 100 * 12` pixels, with no
special treatment of a stored 0. -/
def specMaxBlurPixels (blurIntensity : ℚ) : ℚ :=
  max 0 (min 100 blurIntensity) / 100 * 12

/-- Blur pixels applied after `n` ticks of the post-session ramp timer
(content.js lines 986-1005): each of the 240 ticks over the 120000 ms
ramp adds `maxBlurPixels / 240`, the value is capped at `maxBlurPixels`
and the timer stops once the cap is reached, holding the value there. -/
def postSessionBlurAtStep (maxPixels : ℚ) (n : ℕ) : ℚ :=
  min (n * (maxPixels / 240)) maxPixels

/-- The post-session ramp as the code runs it is non-decreasing in time,
bounded by the cap, and at or beyond 240 ticks (120000 ms) it sits
exactly at the cap; with the default intensity 50 the value after 120
ticks (60 s) is 3 px.  (Supporting development for the post-session
curve; not itself a claim.) -/
theorem postSessionBlurAtStep_props (maxPixels : ℚ) (hmax : 0 ≤ maxPixels) :
    (∀ m n : ℕ, m ≤ n →
      postSessionBlurAtStep maxPixels m ≤ postSessionBlurAtStep maxPixels n) ∧
    (∀ n : ℕ, 0 ≤ postSessionBlurAtStep maxPixels n ∧
      postSessionBlurAtStep maxPixels n ≤ maxPixels) ∧
    (∀ n : ℕ, 240 ≤ n → postSessionBlurAtStep maxPixels n = maxPixels) ∧
    postSessionBlurAtStep (maxBlurPixels (some 50)) 120 = 3 := by
  refine ⟨?_, ?_, ?_, ?_⟩
  · intro m n hmn
    apply min_le_min _ le_rfl
    have : (m : ℚ) ≤ (n : ℚ) := by exact_mod_cast hmn
    have hq : 0 ≤ maxPixels / 240 := by positivity
    nlinarith
  · intro n
    constructor
    · apply le_min
      · positivity
      · exact hmax
    · exact min_le_right _ _
  · intro n hn
    apply min_eq_right
    have h240 : (240 : ℚ) ≤ (n : ℚ) := by exact_mod_cast hn
    nlinarith
  · norm_num [postSessionBlurAtStep, maxBlurPixels, cappedBlurIntensity,
      effectiveBlurIntensity]

/-- C2: the post-session maximum blur does NOT obey
`clamp(blurIntensity, 0, 100) / 100 * 12` for every stored setting.
With a stored `blurIntensity = 0` the code's `|| 50` default (0 is
falsy in JavaScript) yields `maxBlurPixels = 6` px, while the claimed
formula — and the code's own comment "0% = 0px" — gives 0 px. -/
theorem post_session_max_blur_bug :
    maxBlurPixels (some 0) = 6 ∧ specMaxBlurPixels 0 = 0 ∧
    maxBlurPixels (some 0) ≠ specMaxBlurPixels 0 := by
  refine ⟨?_, ?_, ?_⟩ <;>
    norm_num [maxBlurPixels, specMaxBlurPixels, cappedBlurIntensity,
      effectiveBlurIntensity]

/-! ## Session state and tab-visibility tracking (content.js) -/

/-- The session object built by `startSessionWithIntent`
(content.js lines 445-450) and by the background `startSession`
(background.js lines 229-234).  All times are in ms, `intent` is the
intended duration in minutes. -/
structure Session where
  platform : String
  intent : ℤ
  startTime : ℤ
  intendedTime : ℤ
deriving DecidableEq

/-- The content script's module-level session/accounting state:
`currentSession`, `hiddenTime`, `hiddenStartTime` (null when no hidden
interval is open) and whether the nudge modal is on screen. -/
structure ContentState where
  currentSession : Option Session
  hiddenTime : ℤ
  hiddenStartTime : Option ℤ
  nudgeDisplayed : Bool
deriving DecidableEq

/-- JavaScript truthiness of the `hiddenStartTime` variable: `null` is
falsy, and so is the number 0. -/
def timeTruthy : Option ℤ → Bool
  | none => false
  | some t => t != 0

/-- The hidden branch of `handleVisibilityChange` (content.js lines
126-140), restricted to the accounting state: if a session is active
and no hidden interval is open, record `hiddenStartTime = now`
(line 134: `if (currentSession && !hiddenStartTime)`). -/
def onHidden (now : ℤ) (s : ContentState) : ContentState :=
  if s.currentSession.isSome && !timeTruthy s.hiddenStartTime then
    { s with hiddenStartTime := some now }
  else s

/-- The visible branch of `handleVisibilityChange` (content.js lines
141-156), restricted to the accounting state: if a hidden interval is
open and a session is active, add `now - hiddenStartTime` to
`hiddenTime` and clear the open interval (lines 144-147). -/
def onVisible (now : ℤ) (s : ContentState) : ContentState :=
  if timeTruthy s.hiddenStartTime && s.currentSession.isSome then
    { s with hiddenTime := s.hiddenTime + (now - s.hiddenStartTime.getD 0),
             hiddenStartTime := none }
  else s

/-- The elapsed-time expression of the session-timer tick
(content.js line 492) and of `endSession` (content.js line 829):
`Date.now() - startTime - hiddenTime`, with no clamping. -/
def effectiveElapsed (now startTime hiddenTime : ℤ) : ℤ :=
  now - startTime - hiddenTime

/-- `currentSession.startTime || Date.now()` (content.js lines 481 and
829): a session whose `startTime` is the falsy 0 is treated as starting
now. -/
def startTimeRef (now : ℤ) (sess : Session) : ℤ :=
  if sess.startTime = 0 then now else sess.startTime

/-- Modelled from the spec (claim C9's wording): `effectiveElapsed`
clamped to be nonnegative. -/
def specEffectiveElapsed (now startTime hiddenTime : ℤ) : ℤ :=
  max 0 (now - startTime - hiddenTime)

/-- Run a finite sequence of hide/show cycles; each cycle `(h, v)`
hides the tab at time `h` and shows it again at time `v`. -/
def runCycles (s : ContentState) : List (ℤ × ℤ) → ContentState
  | [] => s
  | c :: rest => runCycles (onVisible c.2 (onHidden c.1 s)) rest

/-- Total wall-clock time spent hidden over a list of hide/show cycles. -/
def totalHidden : List (ℤ × ℤ) → ℤ
  | [] => 0
  | c :: rest => (c.2 - c.1) + totalHidden rest

theorem runCycles_accounting (cycles : List (ℤ × ℤ)) (s : ContentState)
    (hsess : s.currentSession.isSome) (hopen : s.hiddenStartTime = none)
    (hpos : ∀ c ∈ cycles, 0 < c.1) :
    (runCycles s cycles).hiddenTime = s.hiddenTime + totalHidden cycles ∧
    (runCycles s cycles).hiddenStartTime = none ∧
    (runCycles s cycles).currentSession = s.currentSession := by
  induction cycles generalizing s with
  | nil => simp [runCycles, totalHidden, hopen]
  | cons c rest ih =>
    have hc : 0 < c.1 := hpos c (List.mem_cons_self c rest)
    have hhid : onHidden c.1 s = { s with hiddenStartTime := some c.1 } := by
      simp [onHidden, hsess, hopen, timeTruthy]
    have htruthy : timeTruthy (some c.1) = true := by
      simp [timeTruthy]
      omega
    have hvis : onVisible c.2 (onHidden c.1 s) =
        { s with hiddenTime := s.hiddenTime + (c.2 - c.1), hiddenStartTime := none } := by
      rw [hhid]
      simp [onVisible, hsess, htruthy]
    have hnext := ih { s with hiddenTime := s.hiddenTime + (c.2 - c.1), hiddenStartTime := none }
      hsess rfl (fun d hd => hpos d (List.mem_cons_of_mem c hd))
    simp only [runCycles, hvis, totalHidden]
    refine ⟨?_, hnext.2.1, hnext.2.2⟩
    rw [hnext.1]
    ring

/-- C4: hidden-time accounting is additive.  Starting from a state with
an active session and no accumulated hidden time, after any finite
sequence of hide/show cycles whose hidden intervals total `H` ms of
wall-clock time, the elapsed value computed by the session timer equals
`(now - startTimestamp) - H`, regardless of the number of cycles. -/
theorem hidden_time_additive (sess : Session) (s : ContentState)
    (cycles : List (ℤ × ℤ)) (now : ℤ)
    (hsess : s.currentSession = some sess) (hzero : s.hiddenTime = 0)
    (hopen : s.hiddenStartTime = none) (hst : sess.startTime ≠ 0)
    (hpos : ∀ c ∈ cycles, 0 < c.1) :
    effectiveElapsed now (startTimeRef now sess) (runCycles s cycles).hiddenTime
      = (now - sess.startTime) - totalHidden cycles := by
  have hs : s.currentSession.isSome := by rw [hsess]; rfl
  have h := runCycles_accounting cycles s hs hopen hpos
  rw [effectiveElapsed, startTimeRef, if_neg hst, h.1, hzero]
  ring

/-- Witness for C4 at the spec's Scenario C: session starts at t=1000,
the tab is hidden from t=121000 to t=241000 (2 minutes), and at
now=601000 (10 minutes of wall time) the effective elapsed time is
480000 ms = 8 minutes. -/
theorem hidden_time_additive_witness :
    effectiveElapsed 601000
      (startTimeRef 601000 ⟨"instagram", 5, 1000, 300000⟩)
      (runCycles ⟨some ⟨"instagram", 5, 1000, 300000⟩, 0, none, false⟩
        [(121000, 241000)]).hiddenTime = 480000 := by
  have h := hidden_time_additive ⟨"instagram", 5, 1000, 300000⟩
    ⟨some ⟨"instagram", 5, 1000, 300000⟩, 0, none, false⟩
    [(121000, 241000)] 601000 rfl rfl rfl (by norm_num)
    (by intro c hc; simp at hc; subst hc; norm_num)
  rw [h]
  norm_num [totalHidden]

/-- C7: `onHidden` is idempotent — a second `onHidden` without an
intervening `onVisible` leaves the whole accounting state (in
particular `hiddenTime` and the open hidden-interval start) exactly as
after the first call, for any realistic (nonzero) first timestamp; and
`onVisible` with no open hidden interval is a no-op. -/
theorem onHidden_idempotent (s : ContentState) (t₁ t₂ : ℤ) (h₁ : t₁ ≠ 0) :
    onHidden t₂ (onHidden t₁ s) = onHidden t₁ s ∧
    (s.hiddenStartTime = none → onVisible t₂ s = s) := by
  constructor
  · by_cases hg : s.currentSession.isSome && !timeTruthy s.hiddenStartTime
    · have h1 : onHidden t₁ s = { s with hiddenStartTime := some t₁ } := by
        simp only [onHidden, if_pos hg]
      rw [h1]
      have htruthy : timeTruthy (some t₁) = true := by
        simp [timeTruthy]; omega
      simp [onHidden, htruthy]
    · have h1 : onHidden t₁ s = s := by simp only [onHidden, if_neg hg]
      rw [h1]
      simp only [onHidden, if_neg hg]
  · intro hopen
    simp [onVisible, hopen, timeTruthy]

/-- Witness for C7 at a concrete state and timestamps. -/
theorem onHidden_idempotent_witness :
    onHidden 2000 (onHidden 1000
      ⟨some ⟨"reddit", 5, 500, 300000⟩, 0, none, false⟩) =
    onHidden 1000 ⟨some ⟨"reddit", 5, 500, 300000⟩, 0, none, false⟩ ∧
    onVisible 2000 ⟨some ⟨"reddit", 5, 500, 300000⟩, 0, none, false⟩ =
      ⟨some ⟨"reddit", 5, 500, 300000⟩, 0, none, false⟩ := by
  have h := onHidden_idempotent ⟨some ⟨"reddit", 5, 500, 300000⟩, 0, none, false⟩
    1000 2000 (by norm_num)
  exact ⟨h.1, h.2 rfl⟩

/-- C9 (amended): the elapsed value used by the timer tick and by
`endSession` is the raw difference `now - startTime - hiddenTime`, with
no clamping; it is nonnegative exactly when the accumulated hidden time
does not exceed `now - startTime`, and negative otherwise. -/
theorem effectiveElapsed_unclamped (now startTime hiddenTime : ℤ) :
    effectiveElapsed now startTime hiddenTime = now - startTime - hiddenTime ∧
    (0 ≤ effectiveElapsed now startTime hiddenTime ↔
      hiddenTime ≤ now - startTime) := by
  refine ⟨rfl, ?_⟩
  unfold effectiveElapsed
  omega

/-- Counterexample to C9 as stated: at `now = 5`, `startTime = 1`,
`hiddenTime = 10` the code's elapsed value is `-6`, which is negative
and differs from the clamped value 0 that the claim specifies. -/
theorem effectiveElapsed_negative_cex :
    effectiveElapsed 5 1 10 = -6 ∧ effectiveElapsed 5 1 10 < 0 ∧
    specEffectiveElapsed 5 1 10 = 0 ∧
    effectiveElapsed 5 1 10 ≠ specEffectiveElapsed 5 1 10 := by
  refine ⟨rfl, by norm_num [effectiveElapsed], rfl, by norm_num [effectiveElapsed, specEffectiveElapsed]⟩

/-! ## Session start (background.js `startSession`, content.js
`startSessionWithIntent`) -/

/-- background.js lines 228-238: `startSession(intent, platform)` builds
a session object unconditionally — there is no check on `intent` — and
persists it as `currentSession`; the response is always
`{ success: true }`.  The first component is the persisted session, the
second is `response.success`. -/
def startSession (intent : ℤ) (platform : String) (now : ℤ) : Option Session × Bool :=
  (some ⟨platform, intent, now, intent * 60000⟩, true)

/-- content.js lines 422-459: on a successful background response,
`startSessionWithIntent(minutes)` resets the hidden-time accounting
(`hiddenTime = 0`, `hiddenStartTime = null`), installs the new session,
and opens a hidden interval instead of starting the timer when the tab
is hidden.  No validation of `minutes` is performed. -/
def startSessionWithIntent (minutes : ℤ) (platform : String) (now : ℤ)
    (hidden : Bool) (s : ContentState) : ContentState :=
  if (startSession minutes platform now).2 then
    { currentSession := some ⟨platform, minutes, now, minutes * 60000⟩,
      hiddenTime := 0,
      hiddenStartTime := if hidden then some now else none,
      nudgeDisplayed := s.nudgeDisplayed }
  else s

/-- C3 (amended): `start` performs no validation of the intended
duration.  For every `intendedMinutes` — including zero and negative
values — it succeeds, persists a session whose `intendedDurationMs` is
`intendedMinutes * 60000`, and resets hidden-time accounting; there is
no `InvalidIntent` failure path in the code. -/
theorem startSession_no_validation (minutes : ℤ) (platform : String)
    (now : ℤ) (hidden : Bool) (s : ContentState) :
    (startSession minutes platform now).2 = true ∧
    (startSession minutes platform now).1 =
      some ⟨platform, minutes, now, minutes * 60000⟩ ∧
    (startSessionWithIntent minutes platform now hidden s).currentSession =
      some ⟨platform, minutes, now, minutes * 60000⟩ ∧
    (startSessionWithIntent minutes platform now hidden s).hiddenTime = 0 ∧
    (startSessionWithIntent minutes platform now hidden s).hiddenStartTime =
      (if hidden then some now else none) := by
  refine ⟨rfl, rfl, ?_, ?_, ?_⟩ <;> simp [startSessionWithIntent, startSession]

/-- Counterexample to C3 as stated: with `intendedMinutes = 0` the call
does not fail — it reports success and a session is created and
persisted, contradicting "fails with InvalidIntent and makes no partial
state change". -/
theorem startSession_zero_cex :
    (startSession 0 "instagram" 1000).2 = true ∧
    (startSession 0 "instagram" 1000).1 = some ⟨"instagram", 0, 1000, 0⟩ ∧
    (startSessionWithIntent 0 "instagram" 1000 false
      ⟨none, 0, none, false⟩).currentSession.isSome = true := by
  exact ⟨rfl, rfl, rfl⟩

/-! ## Extending the session from a displayed nudge
(content.js `showNudge` lines 797-815; the same extension is wired in
`toggleBlurControlPopup`, lines 1189-1205) -/

/-- The "Continue 10 more min" click handler (content.js lines 801-814):
if a session is active, add `10 * 60000` ms to its intended time and
remove the nudge modal in the same step. -/
def continueNudgeClick (s : ContentState) : ContentState :=
  match s.currentSession with
  | some sess =>
    { s with
      currentSession := some { sess with intendedTime := sess.intendedTime + 10 * 60000 },
      nudgeDisplayed := false }
  | none => s

/-- C6: extending the session while a nudge is displayed dismisses the
nudge in the same step and increases `intendedDurationMs` by exactly
`10 * 60000 = 600000` ms. -/
theorem extend_dismisses_nudge (s : ContentState) (sess : Session)
    (hs : s.currentSession = some sess) (hn : s.nudgeDisplayed = true) :
    (continueNudgeClick s).nudgeDisplayed = false ∧
    (continueNudgeClick s).currentSession =
      some { sess with intendedTime := sess.intendedTime + 600000 } := by
  constructor <;> simp [continueNudgeClick, hs]

/-- Witness for C6: a session intended for 5 minutes (300000 ms) with a
nudge on screen; after the extension the nudge is gone and the intended
time is 900000 ms. -/
theorem extend_dismisses_nudge_witness :
    (continueNudgeClick ⟨some ⟨"linkedin", 5, 1000, 300000⟩, 0, none, true⟩).nudgeDisplayed
      = false ∧
    (continueNudgeClick ⟨some ⟨"linkedin", 5, 1000, 300000⟩, 0, none, true⟩).currentSession
      = some ⟨"linkedin", 5, 1000, 900000⟩ := by
  have h := extend_dismisses_nudge ⟨some ⟨"linkedin", 5, 1000, 300000⟩, 0, none, true⟩
    ⟨"linkedin", 5, 1000, 300000⟩ rfl rfl
  exact ⟨h.1, h.2⟩

/-! ## Session history (background.js `endSession`, lines 246-277) -/

/-- JavaScript `Math.round`: round half toward positive infinity. -/
def jsRound (q : ℚ) : ℤ :=
  ⌊q + 1 / 2⌋

/-- An entry of the persisted `sessions` history array
(background.js lines 252-257): the platform, the intended minutes
(`session.intent`), the actual minutes
(`Math.round(actualTime / 60000)`) and an ISO date string. -/
structure SessionRecord where
  platform : String
  intendedTime : ℤ
  actualTime : ℤ
  date : String
deriving DecidableEq

/-- background.js `endSession(platform, actualTime)`, lines 246-277:
if a session is stored, append a history record, drop the oldest entry
when the array exceeds 100 entries (`sessions.shift()`), and clear
`currentSession`.  Returns the new `currentSession` and the new
`sessions` array. -/
def endSessionBg (currentSession : Option Session) (sessions : List SessionRecord)
    (actualTime : ℚ) (date : String) : Option Session × List SessionRecord :=
  match currentSession with
  | none => (none, sessions)
  | some sess =>
    let entry : SessionRecord :=
      ⟨sess.platform, sess.intent, jsRound (actualTime / 60000), date⟩
    let pushed := sessions ++ [entry]
    (none, if 100 < pushed.length then pushed.tail else pushed)

/-- C10: session history is bounded.  If the stored history has at most
100 entries (the inductive invariant; it starts empty), then after an
`endSession` that records a session it still has at most 100 entries;
when the bound would be exceeded (exactly 100 stored entries), the
oldest entry is dropped first; and the newly recorded entry stores
`actualTime` rounded to whole minutes. -/
theorem session_history_bounded (sess : Session) (sessions : List SessionRecord)
    (actualTime : ℚ) (date : String) (hlen : sessions.length ≤ 100) :
    ((endSessionBg (some sess) sessions actualTime date).2).length ≤ 100 ∧
    (sessions.length = 100 →
      (endSessionBg (some sess) sessions actualTime date).2 =
        sessions.tail ++ [⟨sess.platform, sess.intent, jsRound (actualTime / 60000), date⟩]) ∧
    ((endSessionBg (some sess) sessions actualTime date).2).getLast? =
      some ⟨sess.platform, sess.intent, jsRound (actualTime / 60000), date⟩ := by
  simp only [endSessionBg]
  by_cases hfull : 100 < (sessions ++ [(⟨sess.platform, sess.intent,
      jsRound (actualTime / 60000), date⟩ : SessionRecord)]).length
  · have hlen100 : sessions.length = 100 := by
      simp [List.length_append] at hfull
      omega
    obtain ⟨x, xs, rfl⟩ : ∃ x xs, sessions = x :: xs := by
      cases sessions with
      | nil => simp at hlen100
      | cons x xs => exact ⟨x, xs, rfl⟩
    refine ⟨?_, ?_, ?_⟩
    · simp only [if_pos hfull]
      simp [List.length_append] at hlen100 ⊢
      omega
    · intro _
      simp only [if_pos hfull]
      simp
    · simp only [if_pos hfull]
      simp [List.getLast?_concat]
  · refine ⟨?_, ?_, ?_⟩
    · simp only [if_neg hfull]
      simp [List.length_append] at hfull ⊢
      omega
    · intro h100
      exfalso
      apply hfull
      simp [List.length_append, h100]
    · simp only [if_neg hfull]
      simp [List.getLast?_concat]

/-- Witness for C10: ending a session with an empty history stores one
entry whose `actualTime` is `Math.round(480000 / 60000) = 8` minutes. -/
theorem session_history_bounded_witness :
    ((endSessionBg (some ⟨"reddit", 5, 1000, 300000⟩) [] 480000 "d").2).length ≤ 100 ∧
    ((endSessionBg (some ⟨"reddit", 5, 1000, 300000⟩) [] 480000 "d").2).getLast? =
      some ⟨"reddit", 5, 8, "d"⟩ := by
  have h := session_history_bounded ⟨"reddit", 5, 1000, 300000⟩ [] 480000 "d"
    (by norm_num)
  refine ⟨h.1, ?_⟩
  have h3 := h.2.2
  have : jsRound ((480000 : ℚ) / 60000) = 8 := by
    norm_num [jsRound]
  rw [this] at h3
  exact h3

/-! ## Nudge text and local fallback (background.js `getAINudge` lines
318-392, `generateFallbackMessage` lines 404-468) -/

/-- The `messages` object of `generateFallbackMessage`: one list of five
templates per tone. -/
structure ToneMessages where
  encouraging : List String
  neutral : List String
  direct : List String

/-- `messages[tone] || messages.encouraging` (background.js line 466):
an unknown tone key yields `undefined`, which falls back to the
encouraging list. -/
def lookupTone (m : ToneMessages) (tone : String) : List String :=
  if tone = "encouraging" then m.encouraging
  else if tone = "neutral" then m.neutral
  else if tone = "direct" then m.direct
  else m.encouraging

/-- background.js line 439: `overTime > 0 ? \x60 (${overTime} min over)\x60 : ""` (template literal in the source). -/
def overTimeText (overTime : ℤ) : String :=
  if 0 < overTime then " (" ++ toString overTime ++ " min over)" else ""

/-- The post-session templates (background.js lines 413-435), used when
`intendedTime == 0`. -/
def postSessionMessages (actualTime : ℤ) (goal : String) : ToneMessages :=
  let a := toString actualTime
  { encouraging := [
      "Hey! " ++ a ++ " minutes since your session. \"" ++ goal ++ "\" is waiting for your awesome focus! 🌟",
      "Quick check-in: " ++ a ++ " min of scrolling. Ready to tackle \"" ++ goal ++ "\"? You\x27ve got this! 💪",
      a ++ " minutes browsing time! How about channeling that energy into \"" ++ goal ++ "\"? ✨",
      "Time flies! " ++ a ++ " min already. \"" ++ goal ++ "\" would love your attention right about now! 🎯",
      "Friendly nudge: " ++ a ++ " min scrolled. Your future self will thank you for working on \"" ++ goal ++ "\"! 🙌"],
    neutral := [
      "You\x27ve been browsing for " ++ a ++ " minutes since your session ended.",
      "Time check: " ++ a ++ " min. Your goal \"" ++ goal ++ "\" is still there.",
      a ++ " minutes of scrolling. Consider setting a new intention.",
      "Quick update: " ++ a ++ " min browsing time logged.",
      "Checking in: " ++ a ++ " minutes since your last session."],
    direct := [
      a ++ " minutes scrolling. Time for \"" ++ goal ++ "\".",
      a ++ " min up. Back to \"" ++ goal ++ "\"?",
      "Heads up: " ++ a ++ " min since session. \"" ++ goal ++ "\" awaits.",
      a ++ " minutes. Start a new session or switch to \"" ++ goal ++ "\".",
      "Time check: " ++ a ++ " min. Ready to refocus?"] }

/-- The active-session templates (background.js lines 438-462), used
when `intendedTime != 0`. -/
def activeSessionMessages (intendedTime actualTime : ℤ) (goal : String) : ToneMessages :=
  let a := toString actualTime
  let ot := overTimeText (actualTime - intendedTime)
  { encouraging := [
      a ++ " minutes in" ++ ot ++ "! \"" ++ goal ++ "\" is calling your name - you\x27ve totally got this! 🌟",
      "Hey there! " ++ a ++ " min scrolled. Ready to show \"" ++ goal ++ "\" what you\x27re made of? 💪",
      "Time check: " ++ a ++ " min! Your awesome goal \"" ++ goal ++ "\" could use your energy right now! ✨",
      a ++ " minutes of scrolling" ++ ot ++ ". \"" ++ goal ++ "\" believes in you - time to make it happen! 🎯",
      "Quick nudge: " ++ a ++ " min! How about we crush \"" ++ goal ++ "\" together? You\x27re doing great! 🙌"],
    neutral := [
      "You\x27ve been scrolling for " ++ a ++ " minutes" ++ ot ++ ".",
      "Session update: " ++ a ++ " min elapsed. Goal: \"" ++ goal ++ "\".",
      "Time check: " ++ a ++ " minutes" ++ ot ++ ". Your goal is \"" ++ goal ++ "\".",
      a ++ " min on this session. Planned: " ++ toString intendedTime ++ " min.",
      "Current session: " ++ a ++ " minutes. Remember: \"" ++ goal ++ "\"."],
    direct := [
      a ++ " min" ++ ot ++ ". Time for \"" ++ goal ++ "\".",
      "Session at " ++ a ++ " min. Back to \"" ++ goal ++ "\".",
      a ++ " minutes scrolled. \"" ++ goal ++ "\" is waiting.",
      "Time\x27s up at " ++ a ++ " min. Focus on \"" ++ goal ++ "\".",
      a ++ " min" ++ ot ++ ". Let\x27s switch to \"" ++ goal ++ "\"."] }

/-- background.js lines 404-468: pick a tone list (unknown tones fall
back to encouraging) and select a pseudo-random entry;
`userGoal || "your goals"` substitutes the default goal for an empty
one.  `Math.floor(Math.random() * length)` is modelled by an injected
`rand` reduced mod the list length. -/
def generateFallbackMessage (intendedTime actualTime : ℤ)
    (userGoal tone : String) (rand : ℕ) : String :=
  let goal := if userGoal = "" then "your goals" else userGoal
  let messages :=
    if intendedTime = 0 then postSessionMessages actualTime goal
    else activeSessionMessages intendedTime actualTime goal
  let toneMessages := lookupTone messages tone
  toneMessages.getD (rand % toneMessages.length) ""

theorem length_append_pos (s t : String) (h : 0 < t.length) :
    0 < (s ++ t).length := by
  rw [String.length_append]
  omega

theorem getD_mod_pos (l : List String) (r : ℕ) (hne : l ≠ [])
    (h : ∀ m ∈ l, 0 < m.length) : 0 < (l.getD (r % l.length) "").length := by
  have hlen : 0 < l.length := List.length_pos.mpr hne
  have hlt : r % l.length < l.length := Nat.mod_lt _ hlen
  rw [List.getD_eq_getElem?_getD, List.getElem?_eq_getElem hlt, Option.getD_some]
  exact h _ (List.getElem_mem hlt)

theorem lookupTone_cases (m : ToneMessages) (tone : String) :
    lookupTone m tone = m.encouraging ∨ lookupTone m tone = m.neutral ∨
      lookupTone m tone = m.direct := by
  unfold lookupTone
  split_ifs <;> tauto

theorem postSessionMessages_pos (a : ℤ) (g tone : String) :
    lookupTone (postSessionMessages a g) tone ≠ [] ∧
    ∀ m ∈ lookupTone (postSessionMessages a g) tone, 0 < m.length := by
  rcases lookupTone_cases (postSessionMessages a g) tone with h|h|h <;> rw [h] <;>
    refine ⟨by simp [postSessionMessages], ?_⟩ <;>
    · intro m hm
      simp only [postSessionMessages, List.mem_cons, List.not_mem_nil, or_false] at hm
      rcases hm with rfl|rfl|rfl|rfl|rfl <;> (apply length_append_pos; decide)

theorem activeSessionMessages_pos (i a : ℤ) (g tone : String) :
    lookupTone (activeSessionMessages i a g) tone ≠ [] ∧
    ∀ m ∈ lookupTone (activeSessionMessages i a g) tone, 0 < m.length := by
  rcases lookupTone_cases (activeSessionMessages i a g) tone with h|h|h <;> rw [h] <;>
    refine ⟨by simp [activeSessionMessages], ?_⟩ <;>
    · intro m hm
      simp only [activeSessionMessages, List.mem_cons, List.not_mem_nil, or_false] at hm
      rcases hm with rfl|rfl|rfl|rfl|rfl <;> (apply length_append_pos; decide)

theorem generateFallbackMessage_pos (intendedTime actualTime : ℤ)
    (userGoal tone : String) (rand : ℕ) :
    0 < (generateFallbackMessage intendedTime actualTime userGoal tone rand).length := by
  simp only [generateFallbackMessage]
  by_cases h : intendedTime = 0
  · simp only [if_pos h]
    exact getD_mod_pos _ rand (postSessionMessages_pos actualTime _ tone).1
      (postSessionMessages_pos actualTime _ tone).2
  · simp only [if_neg h]
    exact getD_mod_pos _ rand (activeSessionMessages_pos intendedTime actualTime _ tone).1
      (activeSessionMessages_pos intendedTime actualTime _ tone).2

/-- Outcome of the external nudge-text provider call (the Groq fetch in
`getAINudge`): an ok response carrying the trimmed message text, a
non-ok HTTP response, or a thrown network error. -/
inductive ProviderOutcome where
  | ok (text : String)
  | httpError
  | networkError
deriving DecidableEq

/-- background.js line 325:
`tone || preferences.messageTone || "encouraging"` (empty strings are
falsy). -/
def resolveTone (tone prefTone : String) : String :=
  if tone = "" then (if prefTone = "" then "encouraging" else prefTone) else tone

/-- background.js lines 318-392: with no API key (missing or the falsy
empty string) the fallback is used directly; otherwise the provider is
called, and any failure — non-ok response, thrown error, or an empty
message in the response — is caught and replaced by the fallback. -/
def getAINudge (intendedTime actualTime : ℤ) (userGoal tone prefTone : String)
    (apiKey : Option String) (provider : ProviderOutcome) (rand : ℕ) : String :=
  let messageTone := resolveTone tone prefTone
  match apiKey with
  | none => generateFallbackMessage intendedTime actualTime userGoal messageTone rand
  | some k =>
    if k = "" then generateFallbackMessage intendedTime actualTime userGoal messageTone rand
    else
      match provider with
      | ProviderOutcome.ok text =>
        if text = "" then
          generateFallbackMessage intendedTime actualTime userGoal messageTone rand
        else text
      | ProviderOutcome.httpError =>
        generateFallbackMessage intendedTime actualTime userGoal messageTone rand
      | ProviderOutcome.networkError =>
        generateFallbackMessage intendedTime actualTime userGoal messageTone rand

/-- The provider failure cases named by the claim: no API key (missing
or empty), network error, non-ok response, or empty response text. -/
def providerFails (apiKey : Option String) (provider : ProviderOutcome) : Prop :=
  apiKey = none ∨ apiKey = some "" ∨ provider = ProviderOutcome.httpError ∨
    provider = ProviderOutcome.networkError ∨ provider = ProviderOutcome.ok ""

/-- C5: for every input, whenever the external nudge text provider
fails (no API key, network error, non-ok response, or empty response),
`getAINudge` returns the locally generated fallback message, which is a
non-empty string — the nudge is always displayed with some text. -/
theorem ainudge_always_nonempty (intendedTime actualTime : ℤ)
    (userGoal tone prefTone : String) (apiKey : Option String)
    (provider : ProviderOutcome) (rand : ℕ)
    (hfail : providerFails apiKey provider) :
    getAINudge intendedTime actualTime userGoal tone prefTone apiKey provider rand =
      generateFallbackMessage intendedTime actualTime userGoal
        (resolveTone tone prefTone) rand ∧
    0 < (getAINudge intendedTime actualTime userGoal tone prefTone apiKey
      provider rand).length := by
  have hfb : getAINudge intendedTime actualTime userGoal tone prefTone apiKey provider rand
      = generateFallbackMessage intendedTime actualTime userGoal
        (resolveTone tone prefTone) rand := by
    rcases apiKey with _ | k
    · rfl
    · rcases hfail with h|h|h|h|h
      · exact absurd h (by simp)
      · injection h with hk
        subst hk
        simp [getAINudge]
      · subst h
        by_cases hk : k = "" <;> simp [getAINudge, hk]
      · subst h
        by_cases hk : k = "" <;> simp [getAINudge, hk]
      · subst h
        by_cases hk : k = "" <;> simp [getAINudge, hk]
  refine ⟨hfb, ?_⟩
  rw [hfb]
  exact generateFallbackMessage_pos intendedTime actualTime userGoal
    (resolveTone tone prefTone) rand

/-- Witness for C5: a thrown network error with no API key stored still
produces a non-empty message. -/
theorem ainudge_always_nonempty_witness :
    providerFails none ProviderOutcome.networkError ∧
    0 < (getAINudge 5 8 "" "encouraging" "" none
      ProviderOutcome.networkError 0).length :=
  ⟨Or.inl rfl,
    (ainudge_always_nonempty 5 8 "" "encouraging" "" none
      ProviderOutcome.networkError 0 (Or.inl rfl)).2⟩

end ScrollSense
